import Mathlib

/-!
Verification of the nalgebra.org documentation-site repository.

The development shallowly embeds the data of the repository: the docs
sidebar tree (`sidebar_docs.js`), the site configuration (captured as an
unnamed source file), the landing-page components (captured as an unnamed
source file), the heads of the Markdown/MDX content files, and the
documentation-generation shell script appended to the captured `README.md`.
-/

namespace NalgebraOrg

/-- An entry of a Docusaurus sidebar tree: a plain document identifier, an
external link object, or a named category holding further entries
(`sidebar_docs.js`). -/
inductive SidebarEntry where
  | doc (id : String)
  | link (label href : String)
  | cat (label : String) (entries : List SidebarEntry)

/-- The `docs` sidebar tree of `sidebar_docs.js` (`module.exports.docs`).
The identifier `user_guide/quick_reference` is commented out in the source
and therefore absent here. -/
def docsSidebar : List SidebarEntry :=
  [ .doc "about_nalgebra",
    .cat "User Guide"
      [ .doc "user_guide/getting_started",
        .doc "user_guide/vectors_and_matrices",
        .doc "user_guide/decompositions_and_lapack",
        .doc "user_guide/points_and_transformations",
        .doc "user_guide/projections",
        .doc "user_guide/cg_recipes",
        .doc "user_guide/nalgebra_glm",
        .doc "user_guide/performance_tricks",
        .doc "user_guide/wasm_and_embedded_targets",
        .doc "user_guide/generic_programming" ],
    .cat "API documentation"
      [ .link "nalgebra ↪" "https://docs.rs/nalgebra",
        .link "nalgebra-glm ↪" "https://docs.rs/nalgebra-glm",
        .link "nalgebra-lapack ↪" "https://docs.rs/nalgebra-lapack" ],
    .doc "faq" ]

mutual

/-- The plain string document identifiers of one sidebar entry, including
those nested inside categories. -/
def entryDocIds : SidebarEntry → List String
  | .doc i => [i]
  | .link _ _ => []
  | .cat _ es => entriesDocIds es

/-- The plain string document identifiers of a list of sidebar entries. -/
def entriesDocIds : List SidebarEntry → List String
  | [] => []
  | e :: es => entryDocIds e ++ entriesDocIds es

end

/-- Whether the first character list starts with the second. -/
def charsLead : List Char → List Char → Bool
  | _, [] => true
  | [], _ :: _ => false
  | c :: cs, d :: ds => c == d && charsLead cs ds

/-- Whether the string `s` starts with the opening text `p`: a
character-list computation mirroring `String.startsWith`, kept executable
by kernel reduction. -/
def strLeads (s p : String) : Bool := charsLead s.data p.data

/-- Drops the first `n` characters of a string, mirroring `String.drop`. -/
def strDrop (s : String) (n : Nat) : String := ⟨s.data.drop n⟩

/-- The first entry list of a category with the given label, searched at the
top level of a sidebar tree. -/
def findCategory (label : String) : List SidebarEntry → Option (List SidebarEntry)
  | [] => none
  | .cat l es :: rest => if l == label then some es else findCategory label rest
  | _ :: rest => findCategory label rest

/-- Whether a sidebar entry is an external link object with an https href. -/
def isHttpsLink : SidebarEntry → Bool
  | .link _ href => strLeads href "https://"
  | _ => false

/-- A Markdown/MDX content file of the repository: a label naming it, the
directory (relative to the docs root) its front-matter id is qualified by,
and its opening lines. -/
structure SourceDoc where
  label : String
  dir : String
  headLines : List String
deriving DecidableEq

/-- The raw front-matter block of a file: the lines strictly between an
opening `---` on the first line and a closing `---`; `none` when the file
does not open with a front-matter fence. -/
def fmBlock : List String → Option (List String)
  | "---" :: rest =>
      if rest.contains "---" then some (rest.takeWhile (fun l => l ≠ "---")) else none
  | _ => none

/-- Whether a file declares front-matter containing an id, a title and a
sidebar label. -/
def hasFrontMatter (ls : List String) : Bool :=
  match fmBlock ls with
  | some b =>
      b.any (fun l => strLeads l "id:") &&
      b.any (fun l => strLeads l "title:") &&
      b.any (fun l => strLeads l "sidebar_label:")
  | none => false

/-- The id declared in the front-matter of a file, when there is one. -/
def declaredId (ls : List String) : Option String :=
  (fmBlock ls).bind fun b =>
    (b.find? (fun l => strLeads l "id: ")).map (fun l => strDrop l 4)

/-- The declared front-matter id of a content page, qualified by its
directory, as the sidebar references it. -/
def qualifiedId (d : SourceDoc) : Option String :=
  (declaredId d.headLines).map fun i => if d.dir = "" then i else d.dir ++ "/" ++ i

/-- Head of `docs/user_guide/decompositions_and_lapack.mdx`. -/
def decompositionsAndLapackMdx : SourceDoc :=
  { label := "docs/user_guide/decompositions_and_lapack.mdx"
    dir := "user_guide"
    headLines :=
      [ "---",
        "id: decompositions_and_lapack",
        "title: Decompositions and Lapack",
        "sidebar_label: Decompositions and Lapack",
        "---" ] }

/-- Head of `docs/user_guide/nalgebra_glm.mdx`. -/
def nalgebraGlmMdx : SourceDoc :=
  { label := "docs/user_guide/nalgebra_glm.mdx"
    dir := "user_guide"
    headLines :=
      [ "---",
        "id: nalgebra_glm",
        "title: The nalgebra-glm crate",
        "sidebar_label: The nalgebra-glm crate",
        "---" ] }

/-- Head of the captured generic-programming page (unnamed source file
part_002). The path of the captured file is not recorded; its `user_guide`
directory follows the sidebar identifier `user_guide/generic_programming`
that the spec says it resolves. -/
def genericProgrammingMdx : SourceDoc :=
  { label := "unnamed/part_002"
    dir := "user_guide"
    headLines :=
      [ "---",
        "id: generic_programming",
        "title: Generic programming",
        "sidebar_label: Generic programming",
        "---" ] }

/-- Head of the first captured legacy wasm Markdown page (unnamed source
file part_003). The file opens directly with a heading and declares no
front-matter. -/
def wasmLegacyA : SourceDoc :=
  { label := "unnamed/part_003"
    dir := ""
    headLines :=
      [ "# Web assembly and embedded programming",
        "Linear algebra can of course be dramatically useful for browser applications" ] }

/-- Head of the second captured legacy wasm Markdown page (unnamed source
file part_004). The file opens directly with a heading and declares no
front-matter. -/
def wasmLegacyB : SourceDoc :=
  { label := "unnamed/part_004"
    dir := ""
    headLines :=
      [ "# Web assembly and embedded programming",
        "Linear algebra can of course be dramatically useful for browser applications" ] }

/-- The Markdown/MDX content files among the captured sources. -/
def srcContentDocs : List SourceDoc :=
  [ decompositionsAndLapackMdx, nalgebraGlmMdx, genericProgrammingMdx,
    wasmLegacyA, wasmLegacyB ]

/-- A documentation page consisting only of a directory and a declared
front-matter id. -/
def specPage (dir id : String) : SourceDoc :=
  { label := (if dir = "" then id else dir ++ "/" ++ id)
    dir := dir
    headLines := [ "---", "id: " ++ id, "---" ] }

/-- Modelled from the spec: the documentation pages referenced by the docs
sidebar whose files are not among the captured sources (`about_nalgebra`,
`faq`, and seven `user_guide` pages). The spec states that every identifier
listed in the sidebar trees corresponds to a document with a matching
declared id, and that every identifier must resolve to exactly one content
page. -/
def specModelledDocs : List SourceDoc :=
  [ specPage "" "about_nalgebra",
    specPage "user_guide" "getting_started",
    specPage "user_guide" "vectors_and_matrices",
    specPage "user_guide" "points_and_transformations",
    specPage "user_guide" "projections",
    specPage "user_guide" "cg_recipes",
    specPage "user_guide" "performance_tricks",
    specPage "user_guide" "wasm_and_embedded_targets",
    specPage "" "faq" ]

/-- All documentation pages of the repository: the captured content files
together with the spec-modelled pages missing from the capture. -/
def allDocPages : List SourceDoc := srcContentDocs ++ specModelledDocs

/-- The options of a Docusaurus docs-plugin instance, as the site
configuration wires them (`plugins` entry and `presets` docs entry). The
`sidebarPath` is the argument of `require.resolve` in the source. -/
structure DocsPluginOptions where
  id : Option String
  path : String
  routeBasePath : String
  sidebarPath : String
  showLastUpdateTime : Bool
deriving DecidableEq

/-- The parts of the site configuration object the repository controls and
this development reasons about: scalars, the community docs plugin, the
docs preset, the theme stylesheet and the external stylesheets. -/
structure SiteConfig where
  title : String
  tagline : String
  url : String
  baseUrl : String
  onBrokenLinks : String
  favicon : String
  organizationName : String
  projectName : String
  communityPlugin : DocsPluginOptions
  presetDocs : DocsPluginOptions
  themeCustomCss : String
  stylesheets : List String
deriving DecidableEq

/-- The site configuration (captured unnamed source file part_000,
`module.exports`). The source sets the broken-link option to the severity
error and keeps the alternative value throw only in a trailing comment on
the same line. -/
def siteConfig : SiteConfig :=
  { title := "nalgebra"
    tagline := "Linear algebra library for the Rust programming language."
    url := "https://nalgebra.org"
    baseUrl := "/"
    onBrokenLinks := "error"
    favicon := "img/favicon.png"
    organizationName := "dimforge"
    projectName := "nalgebra"
    communityPlugin :=
      { id := some "community"
        path := "community"
        routeBasePath := "community"
        sidebarPath := "./sidebar_community.js"
        showLastUpdateTime := false }
    presetDocs :=
      { id := none
        path := "docs"
        routeBasePath := "docs"
        sidebarPath := "./sidebar_docs.js"
        showLastUpdateTime := false }
    themeCustomCss := "./src/css/custom.css"
    stylesheets := ["https://cdn.jsdelivr.net/npm/katex@0.11.0/dist/katex.min.css"] }

/-- Modelled from the spec: the external framework validates internal links
itself and the configuration chooses how a broken link is reported. Of the
severity values the framework accepts for `onBrokenLinks`, only `throw`
(the alternative the source keeps in the comment next to the option) aborts
the build; `error` reports the broken link without aborting. -/
def brokenLinkSeverityAborts (severity : String) : Bool :=
  severity == "throw"

/-- The repository-local files the site configuration references: the
community sidebar module and the docs sidebar module (both via
`require.resolve`) and the theme CSS file. -/
def configReferencedLocalFiles (c : SiteConfig) : List String :=
  [c.communityPlugin.sidebarPath, c.presetDocs.sidebarPath, c.themeCustomCss]

/-- Strips a leading `./` from a `require.resolve`-style relative path. -/
def stripDotSlash (p : String) : String :=
  if strLeads p "./" then strDrop p 2 else p

/-- Files whose presence the captured sources establish directly. -/
def capturedRepoFiles : List String :=
  [ "README.md",
    "sidebar_docs.js",
    "docs/user_guide/decompositions_and_lapack.mdx",
    "docs/user_guide/nalgebra_glm.mdx" ]

/-- Modelled from the spec: the spec invariant that referenced files
(stylesheets, sidebar modules) must exist at build time covers the
community sidebar module and the theme stylesheet, whose files are not
among the captured sources. -/
def specModelledRepoFiles : List String :=
  [ "sidebar_community.js", "src/css/custom.css" ]

/-- The repository files available to the build. -/
def repoFiles : List String := capturedRepoFiles ++ specModelledRepoFiles

/-- A JavaScript value appearing in the landing page data: a plain string
or a JSX fragment, the latter identified by its text content. -/
inductive JsValue where
  | str (s : String)
  | jsx (text : String)
deriving DecidableEq

/-- A JavaScript object literal as an ordered list of named fields. -/
def JsRecord : Type := List (String × JsValue)

/-- Field lookup in a JavaScript object: the value of the first field with
the given name, `none` when the field is missing. -/
def lookupField : List (String × JsValue) → String → Option JsValue
  | [], _ => none
  | (k, v) :: r, n => if k == n then some v else lookupField r n

/-- The names of the fields of a record, in declaration order. -/
def fieldNames (r : List (String × JsValue)) : List String :=
  r.map Prod.fst

/-- The `features` array literal of the landing page (captured unnamed
source file part_001): six records, each with fields `title` (a JSX
fragment), `imageUrl` (a string) and `description` (a JSX fragment). -/
def features : List (List (String × JsValue)) :=
  [ [ ("title", .jsx "Vectors and matrices"),
      ("imageUrl", .str "img/lego.svg"),
      ("description", .jsx "The fundamental building blocks of linear algebra: heap or stack-allocated vectors and matrices parametrized by their dimensions.") ],
    [ ("title", .jsx "Decompositions and Lapack"),
      ("imageUrl", .str "img/decomposition.svg"),
      ("description", .jsx "Compute matrix decompositions, and solutions to linear systems. Benefit from efficient Rust implementations, or Lapack bindings.") ],
    [ ("title", .jsx "Points and transformations"),
      ("imageUrl", .str "img/rotation.svg"),
      ("description", .jsx "Strongly typed geometric entities like points, rotation matrices, quaternions, isometries, similarities, projections, etc.") ],
    [ ("title", .jsx "nalgebra-glm, for computer graphics"),
      ("imageUrl", .str "img/logo_glm.svg"),
      ("description", .jsx "Use the nalgebra-glm crate for a simpler, straight-to-the-point, graphics programming-oriented API. Inspired by the C++ GLM library.") ],
    [ ("title", .jsx "Wasm and Embedded programming"),
      ("imageUrl", .str "img/cpu.svg"),
      ("description", .jsx "Use and compile nalgebra for browser applications or embedded targets that do not support the Rust standard library.") ],
    [ ("title", .jsx "Forever free and Open-Source"),
      ("imageUrl", .str "img/undraw_open_source.svg"),
      ("description", .jsx "Built with a FOSS mindset, we aim to empower the Rust and web communities with an efficient linear algebra library.") ] ]

/-- A rendered `<Feature key={idx} {...props} />` element of the landing
page: the key and the props the spread passes on. -/
structure FeatureElement where
  key : Nat
  props : List (String × JsValue)
deriving DecidableEq

/-- The elements `features.map((props, idx) => <Feature key={idx}
{...props} />)` produces, with `k` the index of the first element. -/
def renderFeatures : Nat → List (List (String × JsValue)) → List FeatureElement
  | _, [] => []
  | k, r :: rs => ⟨k, r⟩ :: renderFeatures (k + 1) rs

/-- The feature-grid section of `Home` as a function of the feature list:
the JSX guard is `features && features.length > 0`, and an array literal is
always truthy, so the guard reduces to the length test; when it holds the
section holds one `Feature` element per record. -/
def homeFeatureSectionOf (fs : List (List (String × JsValue))) :
    Option (List FeatureElement) :=
  if 0 < fs.length then some (renderFeatures 0 fs) else none

/-- The feature-grid section `Home` actually renders. -/
def homeFeatureSection : Option (List FeatureElement) :=
  homeFeatureSectionOf features

/-- The `Feature` elements `Home` actually renders. -/
def homeFeatureElements : List FeatureElement :=
  renderFeatures 0 features

/-- JavaScript truthiness of a possibly-missing value: `undefined` and the
empty string are falsy, a non-empty string or a JSX fragment is truthy. -/
def jsTruthy : Option JsValue → Bool
  | none => false
  | some (.str s) => s ≠ ""
  | some (.jsx _) => true

/-- A rendered `<img className={styles.featureImage} src={imgUrl}
alt={title} />` element. -/
structure ImgElement where
  src : Option JsValue
  alt : Option JsValue
deriving DecidableEq

/-- The output of the `Feature` component: the conditionally rendered image
container, the `<h3>{title}</h3>` heading and the `<p>{description}</p>`
paragraph. -/
structure FeatureRender where
  imageSection : Option ImgElement
  heading : Option JsValue
  body : Option JsValue
deriving DecidableEq

/-- The `Feature` component: it resolves `imageUrl` through the external
`useBaseUrl` hook (kept as a parameter) and renders the image container
only under the guard `imgUrl && (...)`. -/
def Feature (useBase : Option JsValue → Option JsValue)
    (props : List (String × JsValue)) : FeatureRender :=
  let imgUrl := useBase (lookupField props "imageUrl")
  { imageSection :=
      if jsTruthy imgUrl then some { src := imgUrl, alt := lookupField props "title" }
      else none
    heading := lookupField props "title"
    body := lookupField props "description" }

/-- A statement of the documentation-generation shell script appended to
the captured `README.md`: variable assignments, echoes, directory changes
(`cd $var` and `cd -`), removals (`rm -r` and `rm -rf`), `cargo doc -p pkg
--no-deps --all-features`, `cp -r $srcVar<suffix> $dstVar`, and the
`./fix_rustdoc.sh a b` helper invocation. -/
inductive ShellStmt where
  | assign (name value : String)
  | echoMsg (msg : String)
  | cdVar (name : String)
  | cdBack
  | rmR (path : String)
  | rmRf (path : String)
  | cargoDoc (pkg : String)
  | cpRVar (srcVar srcSuffix dstVar : String)
  | runFix (a b : String)

/-- The documentation-generation shell script, statement by statement. -/
def generateDocsScript : List ShellStmt :=
  [ .assign "out_dir" "./docs/rustdoc",
    .assign "nalgebra_dir" "../nalgebra",
    .echoMsg "Generating the documentation...",
    .cdVar "nalgebra_dir",
    .rmR "target/doc",
    .cargoDoc "nalgebra",
    .cdBack,
    .rmRf "docs/rustdoc",
    .cpRVar "nalgebra_dir" "/target/doc" "out_dir",
    .echoMsg "... documentation for nalgebra generated!",
    .runFix "rustdoc" "rustdoc_nalgebra",
    .echoMsg "Generating the documentation...",
    .assign "out_dir" "./docs/rustdoc_glm",
    .cdVar "nalgebra_dir",
    .rmR "target/doc",
    .cargoDoc "nalgebra-glm",
    .cdBack,
    .rmRf "docs/rustdoc_glm",
    .cpRVar "nalgebra_dir" "/target/doc" "out_dir",
    .echoMsg "... documentation for nalgebra-glm generated!",
    .runFix "rustdoc_glm" "rustdoc_nalgebra_glm" ]

/-- Shell interpreter state: the variable bindings (newest first), the
current directory and the previous directory `cd -` returns to. -/
structure ShellState where
  vars : List (String × String)
  cwd : String
  prevDir : String

/-- The value of a shell variable, the empty string when unset. -/
def lookupVar : List (String × String) → String → String
  | [], _ => ""
  | (k, v) :: r, n => if k == n then v else lookupVar r n

/-- An observable effect of running the script: which directory an external
command ran in, what was removed, what was copied where. -/
inductive ShellEffect where
  | cargoDocIn (cwd pkg : String)
  | removed (cwd path : String)
  | copied (cwd src dst : String)
  | echoed (msg : String)
  | ranFix (cwd a b : String)
deriving DecidableEq

/-- Runs one statement: the successor state and the effects it emits. -/
def runStmt (s : ShellState) : ShellStmt → ShellState × List ShellEffect
  | .assign n v => ({ s with vars := (n, v) :: s.vars }, [])
  | .echoMsg m => (s, [.echoed m])
  | .cdVar n => ({ s with cwd := lookupVar s.vars n, prevDir := s.cwd }, [])
  | .cdBack => ({ s with cwd := s.prevDir, prevDir := s.cwd }, [])
  | .rmR p => (s, [.removed s.cwd p])
  | .rmRf p => (s, [.removed s.cwd p])
  | .cargoDoc pkg => (s, [.cargoDocIn s.cwd pkg])
  | .cpRVar sv suf dv =>
      (s, [.copied s.cwd (lookupVar s.vars sv ++ suf) (lookupVar s.vars dv)])
  | .runFix a b => (s, [.ranFix s.cwd a b])

/-- Runs a script from a state, concatenating the emitted effects. -/
def runScript : ShellState → List ShellStmt → List ShellEffect
  | _, [] => []
  | s, st :: rest =>
      let p := runStmt s st
      p.2 ++ runScript p.1 rest

/-- The effect trace of the documentation-generation script, started in the
site root with no variables bound. -/
def generateDocsTrace : List ShellEffect :=
  runScript ⟨[], ".", "."⟩ generateDocsScript

/-- The steps the spec describes for one package: run the documentation
generator in the sibling checkout, remove the previous output directory
under the site docs tree, copy the generated doc directory there. -/
def packageSteps (pkg out dst : String) : List ShellEffect :=
  [ .cargoDocIn "../nalgebra" pkg,
    .removed "." out,
    .copied "." "../nalgebra/target/doc" dst ]

/-- Keeps the documentation-generator runs, the removals under the site
tree and the copies; drops echoes, the helper script and the removal of the
stale `target/doc` inside the sibling checkout. -/
def siteDocStep : ShellEffect → Bool
  | .cargoDocIn _ _ => true
  | .removed c _ => c == "."
  | .copied _ _ _ => true
  | .echoed _ => false
  | .ranFix _ _ _ => false

/-- Auxiliary: the element at index `i` of the mapped `Feature` elements is
the `i`-th descriptor tagged with key `k + i`. -/
theorem renderFeatures_getElem (rs : List (List (String × JsValue))) (k i : Nat) :
    (renderFeatures k rs)[i]? = rs[i]?.map (fun r => FeatureElement.mk (k + i) r) := by
  induction rs generalizing k i with
  | nil => simp [renderFeatures]
  | cons r rs ih =>
      cases i with
      | zero => simp [renderFeatures]
      | succ n =>
          simp only [renderFeatures, List.getElem?_cons_succ]
          rw [ih (k + 1) n]
          have h : k + 1 + n = k + (n + 1) := by omega
          rw [h]

/-- C1: every plain string identifier listed in the docs sidebar tree of
`sidebar_docs.js`, including the identifiers nested inside the User Guide
category, resolves to exactly one documentation page whose declared
front-matter id, qualified by its directory, matches it. -/
theorem sidebar_ids_resolve_uniquely :
    ((entriesDocIds docsSidebar).all fun i =>
      (allDocPages.filter fun p => qualifiedId p == some i).length == 1) = true := by
  decide

/-- C2 (counterexample): the captured legacy wasm Markdown content file
opens directly with a heading and declares no front-matter at all, so not
every Markdown/MDX content file declares front-matter with an id, a title
and a sidebar label. -/
theorem wasm_doc_lacks_front_matter :
    wasmLegacyA ∈ srcContentDocs ∧ hasFrontMatter wasmLegacyA.headLines = false := by
  decide

/-- C2 (amended): every captured Markdown/MDX content file other than the
two legacy wasm Markdown pages declares front-matter containing an id, a
title and a sidebar label. -/
theorem content_docs_front_matter_except_wasm :
    (srcContentDocs.all fun d =>
      d.label == "unnamed/part_003" || d.label == "unnamed/part_004" ||
      hasFrontMatter d.headLines) = true := by
  decide

/-- C3 (counterexample): the configured broken-internal-link severity is
not the value that makes the external framework abort the build. -/
theorem onBrokenLinks_does_not_abort :
    ¬ (brokenLinkSeverityAborts siteConfig.onBrokenLinks = true) := by
  decide

/-- C3 (amended): the site configuration sets its broken-internal-link
option to the severity `error`, under which the framework reports broken
internal links without aborting the build; the aborting value `throw`
survives only in a comment next to the option. -/
theorem onBrokenLinks_error_no_abort :
    siteConfig.onBrokenLinks = "error" ∧
    brokenLinkSeverityAborts siteConfig.onBrokenLinks = false := by
  exact ⟨rfl, by decide⟩

/-- C4 (counterexample): the first element of the feature descriptor list
does not have the field list title, image, description: its second field is
named imageUrl. -/
theorem features_field_not_named_image :
    fieldNames (features.getD 0 []) ≠ ["title", "image", "description"] := by
  decide

/-- C4 (amended): the feature descriptor list is a fixed six-element
literal array whose every element has exactly the fields title, imageUrl
and description, and the rendered feature grid consumes it once, in order,
passing each record through unchanged. -/
theorem features_literal_shape :
    features.length = 6 ∧
    (features.all fun r => fieldNames r == ["title", "imageUrl", "description"]) = true ∧
    homeFeatureSection.map (fun es => es.map fun e => e.props) = some features := by
  exact ⟨rfl, by decide, rfl⟩

/-- C5: each repository-local file the site configuration references – the
community sidebar module, the docs sidebar module and the theme CSS file –
names a file of the repository. -/
theorem config_referenced_files_exist :
    configReferencedLocalFiles siteConfig =
      ["./sidebar_community.js", "./sidebar_docs.js", "./src/css/custom.css"] ∧
    ((configReferencedLocalFiles siteConfig).all fun p =>
      repoFiles.contains (stripDotSlash p)) = true := by
  exact ⟨rfl, by decide⟩

/-- C6: for every index below the length of the feature list, the rendered
Feature element at that index receives exactly the descriptor at that index
as its props – in particular its title, imageUrl and description values,
untransformed – and carries the index as its key. -/
theorem home_feature_receives_descriptor (i : Nat) (hi : i < features.length) :
    homeFeatureElements[i]?.map (fun e => e.props) = features[i]? ∧
    homeFeatureElements[i]?.map (fun e => e.key) = some i ∧
    homeFeatureElements[i]?.map (fun e => lookupField e.props "title") =
      features[i]?.map (fun r => lookupField r "title") ∧
    homeFeatureElements[i]?.map (fun e => lookupField e.props "imageUrl") =
      features[i]?.map (fun r => lookupField r "imageUrl") ∧
    homeFeatureElements[i]?.map (fun e => lookupField e.props "description") =
      features[i]?.map (fun r => lookupField r "description") := by
  have h := renderFeatures_getElem features 0 i
  have hg : features[i]? = some features[i] := List.getElem?_eq_getElem hi
  refine ⟨?_, ?_, ?_, ?_, ?_⟩ <;> simp [homeFeatureElements, h, hg]

/-- Witness for C6 at index 0. -/
theorem home_feature_receives_descriptor_witness :
    0 < features.length ∧
    (homeFeatureElements[0]?.map (fun e => e.props) = features[0]? ∧
     homeFeatureElements[0]?.map (fun e => e.key) = some 0 ∧
     homeFeatureElements[0]?.map (fun e => lookupField e.props "title") =
       features[0]?.map (fun r => lookupField r "title") ∧
     homeFeatureElements[0]?.map (fun e => lookupField e.props "imageUrl") =
       features[0]?.map (fun r => lookupField r "imageUrl") ∧
     homeFeatureElements[0]?.map (fun e => lookupField e.props "description") =
       features[0]?.map (fun r => lookupField r "description")) :=
  ⟨by decide, home_feature_receives_descriptor 0 (by decide)⟩

/-- C7: the documentation-generation script, for nalgebra and then for
nalgebra-glm, runs the documentation generator inside the sibling library
checkout, removes the previous output directory under the site docs tree,
and copies the generated doc directory into that output directory. -/
theorem generateDocs_per_package :
    generateDocsTrace.filter siteDocStep =
      packageSteps "nalgebra" "docs/rustdoc" "./docs/rustdoc" ++
      packageSteps "nalgebra-glm" "docs/rustdoc_glm" "./docs/rustdoc_glm" := by
  decide

/-- C8: Home renders the feature-grid section exactly when the feature list
is non-empty, and with the fixed six-element literal it renders the section
holding exactly six Feature elements. -/
theorem home_renders_grid_iff_nonempty :
    (∀ fs : List (List (String × JsValue)),
      (homeFeatureSectionOf fs).isSome ↔ fs ≠ []) ∧
    homeFeatureSection.map (fun es => es.length) = some 6 := by
  constructor
  · intro fs
    cases fs with
    | nil => simp [homeFeatureSectionOf]
    | cons a l => simp [homeFeatureSectionOf]
  · rfl

/-- C9: for every base-URL resolver and every props record, the Feature
component renders the image container exactly when the resolved image URL
is truthy, and any img element it emits has a src that is neither missing
nor the empty string. -/
theorem feature_image_guarded (u : Option JsValue → Option JsValue)
    (props : List (String × JsValue)) :
    ((Feature u props).imageSection.isSome =
        jsTruthy (u (lookupField props "imageUrl"))) ∧
    (∀ img : ImgElement, (Feature u props).imageSection = some img →
        img.src ≠ none ∧ img.src ≠ some (JsValue.str "")) := by
  have truthyNe : ∀ v : Option JsValue, jsTruthy v = true →
      v ≠ none ∧ v ≠ some (JsValue.str "") := by
    intro v hv
    constructor
    · intro hcon
      subst hcon
      simp [jsTruthy] at hv
    · intro hcon
      subst hcon
      simp [jsTruthy] at hv
  constructor
  · rcases Bool.eq_false_or_eq_true (jsTruthy (u (lookupField props "imageUrl"))) with h | h <;>
      simp [Feature, h]
  · intro img himg
    by_cases h : jsTruthy (u (lookupField props "imageUrl")) = true
    · have hsec : (Feature u props).imageSection =
          some (ImgElement.mk (u (lookupField props "imageUrl"))
            (lookupField props "title")) := by
        simp [Feature, h]
      rw [hsec] at himg
      have h3 := Option.some.inj himg
      have h4 := truthyNe _ h
      exact ⟨h3 ▸ h4.1, h3 ▸ h4.2⟩
    · exfalso
      have hsec : (Feature u props).imageSection = none := by
        simp [Feature, h]
      rw [hsec] at himg
      exact Option.noConfusion himg

/-- Witness for C9 at the identity resolver and the first feature record. -/
theorem feature_image_guarded_witness :
    (ImgElement.mk (some (JsValue.str "img/lego.svg"))
        (some (JsValue.jsx "Vectors and matrices"))).src ≠ none ∧
    (ImgElement.mk (some (JsValue.str "img/lego.svg"))
        (some (JsValue.jsx "Vectors and matrices"))).src ≠ some (JsValue.str "") :=
  (feature_image_guarded (fun v => v) (features.getD 0 [])).2
    (ImgElement.mk (some (JsValue.str "img/lego.svg"))
      (some (JsValue.jsx "Vectors and matrices")))
    (by decide)

/-- C10: the API documentation category of the docs sidebar holds exactly
three entries, each an external link object with an https href, and it
contributes no plain document identifiers needing local resolution. -/
theorem api_documentation_all_external_links :
    (findCategory "API documentation" docsSidebar).map (fun es => es.length) = some 3 ∧
    ((findCategory "API documentation" docsSidebar).getD []).all isHttpsLink = true ∧
    entriesDocIds ((findCategory "API documentation" docsSidebar).getD []) = [] := by
  exact ⟨rfl, by decide, rfl⟩

end NalgebraOrg
